import Mathlib

/-!
Verification of the Viincci-RAG core pipeline (credit-gated research plus
retrieval-augmented generation).

The repository ships the callers (research_cli.py), the package shims
(viincci_rag/core/*.py) and the V4 package manifest (V4/__init__.py), but the
V4 implementation modules themselves (V4/ApiMonitor.py, V4/Spider.py,
V4/RagSys.py, V4/ConfigManager.py) are not part of the source tree.  The
components below that live in those missing modules are therefore modelled
from the specification (each such definition says so in its doc comment);
the wrapper-module behaviour of viincci_rag/core/*.py is embedded directly
from that source.
-/

namespace ViincciRAG

/-- Budget classification states of `CreditStatus.threshold_state` (spec §3). -/
inductive ThresholdState where
  | OK
  | WARNING
  | CRITICAL
  | EXHAUSTED
deriving DecidableEq, Repr

/-- `CreditStatus` record (spec §3): remaining credits, classified state and
the go/no-go flag, as returned by `SerpAPIMonitor.check_credits`. -/
structure CreditStatus where
  remaining : Nat
  threshold_state : ThresholdState
  can_proceed : Bool
deriving DecidableEq, Repr

/-- Warning threshold of the monitor; asserted to be 100 by the system test
(src/research_cli.py line 178). -/
def warning_threshold : Nat := 100

/-- Critical threshold of the monitor; asserted to be 20 by the system test
(src/research_cli.py line 179). -/
def critical_threshold : Nat := 20

/-- Modelled from the spec: classification of `remaining` against the two
fixed thresholds (V4/ApiMonitor.py is missing from src/).  `EXHAUSTED` when
remaining is 0 (the spec declares the integer nonnegative), `CRITICAL`
below the critical threshold, `WARNING` below the warning threshold,
otherwise `OK`. -/
def classify (remaining : Nat) : ThresholdState :=
  if remaining = 0 then .EXHAUSTED
  else if remaining < critical_threshold then .CRITICAL
  else if remaining < warning_threshold then .WARNING
  else .OK

/-- Modelled from the spec: `can_proceed` is true exactly in the OK and
WARNING states (for all remaining below critical, `can_proceed` is false). -/
def canProceedOf (s : ThresholdState) : Bool :=
  match s with
  | .OK => true
  | .WARNING => true
  | .CRITICAL => false
  | .EXHAUSTED => false

/-- Error taxonomy of the pipeline (spec §7). -/
inductive RagError where
  | ProviderUnavailable
  | DimensionMismatch
  | EmptyIndex
  | ModelLoadError
deriving DecidableEq, Repr

/-- Modelled from the spec: the provider account-status endpoint.  The input
`none` stands for a network or authentication failure of the endpoint, and
`some r` for a successful reply carrying the remaining credit count. -/
def queryAccountStatus (resp : Option Nat) : Except RagError Nat :=
  match resp with
  | none => .error .ProviderUnavailable
  | some r => .ok r

/-- The fail-closed status substituted when the account-status query fails. -/
def exhaustedStatus : CreditStatus :=
  { remaining := 0, threshold_state := .EXHAUSTED, can_proceed := false }

/-- Modelled from the spec: `SerpAPIMonitor.check_credits` (V4/ApiMonitor.py
is missing from src/).  Queries the account-status endpoint; a
`ProviderUnavailable` failure is treated as budget exhaustion (fail-closed),
a successful reply is classified against the two fixed thresholds. -/
def check_credits (resp : Option Nat) : CreditStatus :=
  match queryAccountStatus resp with
  | .error _ => exhaustedStatus
  | .ok r =>
      { remaining := r
        threshold_state := classify r
        can_proceed := canProceedOf (classify r) }

/-- Modelled from the spec: `estimate` — one credit per expected search
call. -/
def estimate (expected_calls : Nat) : Nat := expected_calls

/-- Modelled from the spec: `SerpAPIMonitor.can_start` composes `estimate`
and `check_credits`; true only if the remaining credits cover the estimate
and the threshold state is not `EXHAUSTED`. -/
def can_start (resp : Option Nat) (expected_calls : Nat) : Bool :=
  let s := check_credits resp
  decide (estimate expected_calls ≤ s.remaining) &&
    decide (s.threshold_state ≠ .EXHAUSTED)

/-- A raw organic result from the external search provider (spec §6):
title, snippet and link. -/
structure RawResult where
  title : String
  snippet : String
  link : String
deriving DecidableEq, Repr

/-- A normalized `SearchRecord` (spec §3): non-empty text plus metadata. -/
structure SearchRecord where
  text : String
  title : String
  url : String
  rank : Nat
  domain : String
  source_query : String
deriving DecidableEq, Repr

/-- Modelled from the spec: normalization of one provider batch
(V4/Spider.py is missing from src/).  Results with an empty snippet are
dropped; `rank` is the 1-based position within the batch that produced the
result (the same scheme the in-repo caller generate_davinci.py uses); the
active domain and source query are attached. -/
def normalizeBatch (domain query : String) (batch : List RawResult) :
    List SearchRecord :=
  (batch.enum.filter (fun p => p.2.snippet != "")).map
    (fun p =>
      { text := p.2.snippet
        title := p.2.title
        url := p.2.link
        rank := p.1 + 1
        domain := domain
        source_query := query })

/-- Rank order on search records (lower rank first); the stable insertion
sort by this order realises the stable rank order of the spec. -/
def rankOrder (a b : SearchRecord) : Prop := a.rank ≤ b.rank

instance : DecidableRel rankOrder :=
  fun a b => inferInstanceAs (Decidable (a.rank ≤ b.rank))

instance : IsTotal SearchRecord rankOrder :=
  ⟨fun a b => Nat.le_total a.rank b.rank⟩

instance : IsTrans SearchRecord rankOrder :=
  ⟨fun _ _ _ hab hbc => Nat.le_trans hab hbc⟩

/-- Modelled from the spec: URL deduplication pass.  `seen` accumulates the
URLs already emitted; the first record carrying a given URL is kept and all
later ones are dropped. -/
def dedupAux : List SearchRecord → List String → List SearchRecord
  | [], _ => []
  | r :: rest, seen =>
      if r.url ∈ seen then dedupAux rest seen
      else r :: dedupAux rest (r.url :: seen)

/-- Modelled from the spec: deduplicate records by URL, keeping the first
occurrence; applied after sorting by rank, so the kept occurrence is the
lowest-rank one (earliest on ties, the sort being stable). -/
def dedupByUrl (l : List SearchRecord) : List SearchRecord :=
  dedupAux l []

/-- Modelled from the spec: `UniversalResearchSpider.research` (V4/Spider.py
is missing from src/).  `resp` is the provider account-status reply,
`rawBatches` the raw result batches the provider would return, one per
search call.  Returns the record sequence together with the number of
external provider search calls issued.  If `estimate_first` is set and
`can_start` denies, it returns the empty sequence with zero calls issued
(budget denial is not an error).  Otherwise records are normalized per
batch, sorted into stable rank order and deduplicated by URL. -/
def research (resp : Option Nat) (expected_calls : Nat) (estimate_first : Bool)
    (domain query : String) (rawBatches : List (List RawResult)) :
    List SearchRecord × Nat :=
  if estimate_first && !can_start resp expected_calls then ([], 0)
  else
    let normalized := (rawBatches.map (normalizeBatch domain query)).flatten
    (dedupByUrl (List.insertionSort rankOrder normalized), rawBatches.length)

/-- Per-record metadata mapping, as an association list. -/
abbrev Meta := List (String × String)

/-- The RAG orchestrator state: its vector index, a sequential list of
(text, metadata) entries whose list position is the internal insertion id
(spec §3 VectorIndex). -/
structure Orchestrator where
  index : List (String × Meta)
deriving DecidableEq, Repr

/-- Entry count of the index (`index.ntotal` in src/research_cli.py:197). -/
def ntotal (o : Orchestrator) : Nat := o.index.length

/-- Modelled from the spec: `RAGSystem.build_index` (V4/RagSys.py is missing
from src/).  On mismatched lengths it fails with `DimensionMismatch` before
touching the index, leaving the prior state unchanged; on equal lengths it
replaces the index wholesale with the paired entries.  The result pairs an
optional raised error with the post-call orchestrator state. -/
def build_index (o : Orchestrator) (texts : List String)
    (metadata : List Meta) : Option RagError × Orchestrator :=
  if texts.length = metadata.length then
    (none, { index := texts.zip metadata })
  else
    (some .DimensionMismatch, o)

/-- Modelled from the spec: retrieval order — higher similarity first, ties
broken by lower insertion id. -/
def retrievalOrder (score : String → Int) (a b : Nat × (String × Meta)) : Prop :=
  score b.2.1 < score a.2.1 ∨ (score a.2.1 = score b.2.1 ∧ a.1 ≤ b.1)

instance (score : String → Int) : DecidableRel (retrievalOrder score) :=
  fun a b =>
    inferInstanceAs
      (Decidable (score b.2.1 < score a.2.1 ∨
        (score a.2.1 = score b.2.1 ∧ a.1 ≤ b.1)))

/-- Modelled from the spec: retrieve the k nearest entries of the index by
similarity to the question (`sim question text` is the monotone similarity
score of the external embedding backend), ties broken by lower insertion
id; `take` clamps the result to at most `ntotal` entries. -/
def retrieve (sim : String → String → Int) (o : Orchestrator)
    (question : String) (k : Nat) : List (Nat × (String × Meta)) :=
  (List.insertionSort (retrievalOrder (sim question)) o.index.enum).take k

/-- `QueryResult` record (spec §3): answer, retrieved records and their
similarity scores. -/
structure QueryResult where
  answer : String
  retrieved : List (String × Meta)
  scores : List Int
deriving DecidableEq, Repr

/-- The explicit error marker string prefixing a caught per-question
failure. -/
def errorMarker (msg : String) : String := "[GENERATION ERROR] " ++ msg

/-- Context window: retrieved texts concatenated in similarity order. -/
def buildContext (texts : List String) : String :=
  String.intercalate "\n" texts

/-- The prompt handed to the generation backend: question plus retrieved
context. -/
def promptOf (sim : String → String → Int) (o : Orchestrator)
    (question : String) (k : Nat) : String :=
  question ++ "\n" ++ buildContext ((retrieve sim o question k).map (fun p => p.2.1))

/-- Modelled from the spec: `RAGSystem.query` (V4/RagSys.py is missing from
src/).  `gen` is the external generation backend, which may fail with a
runtime error message.  An empty index fails with `EmptyIndex`; otherwise
the top-k entries are retrieved and an answer generated, with a generation
runtime error caught and returned inline as a `QueryResult` whose answer is
the error marker and whose retrieved list is empty. -/
def queryE (sim : String → String → Int)
    (gen : String → Nat → Except String String) (o : Orchestrator)
    (question : String) (k : Nat) (max_new_tokens : Nat) :
    Except RagError QueryResult :=
  if ntotal o = 0 then .error .EmptyIndex
  else
    let top := retrieve sim o question k
    match gen (promptOf sim o question k) max_new_tokens with
    | .ok ans =>
        .ok { answer := ans
              retrieved := top.map (fun p => p.2)
              scores := top.map (fun p => sim question p.2.1) }
    | .error e =>
        .ok { answer := errorMarker e, retrieved := [], scores := [] }

/-- Modelled from the spec: the per-question loop of a batch (cf. the loop
in perform_research, src/research_cli.py:88-97): each question is answered
independently against the same index. -/
def runQuestions (sim : String → String → Int)
    (gen : String → Nat → Except String String) (o : Orchestrator)
    (k : Nat) (max_new_tokens : Nat) (questions : List String) :
    List (Except RagError QueryResult) :=
  questions.map (fun q => queryE sim gen o q k max_new_tokens)

/-- Positional plus keyword arguments of a Python constructor call. -/
structure PyArgs where
  positional : List String
  keyword : List (String × String)
deriving DecidableEq, Repr

/-- Outcome of a Python call: a value, or a raised RuntimeError message. -/
inductive PyOutcome (α : Type) where
  | ok (a : α)
  | raises (msg : String)
deriving DecidableEq, Repr

/-- The fallback stub constructor each viincci_rag/core wrapper module
defines when the V4 import fails: `__init__(*args, **kwargs)` raises
RuntimeError unconditionally (src/viincci_rag/core/rag_system.py:19-21 and
its three siblings). -/
def fallbackCtor (msg : String) (_ : PyArgs) : PyOutcome Unit :=
  .raises msg

/-- Import of one viincci_rag/core wrapper module
(src/viincci_rag/core/rag_system.py:7-22 and its siblings): the try block
binds the legacy V4 class and defines a behaviour-preserving subclass of
it; the except block defines the stub instead.  Either way the module
itself imports successfully, yielding the constructor of the exported
class. -/
def coreModule (legacy : Option (PyArgs → PyOutcome Unit)) (msg : String) :
    PyOutcome (PyArgs → PyOutcome Unit) :=
  match legacy with
  | some ctor => .ok ctor
  | none => .ok (fallbackCtor msg)

/-- src/viincci_rag/core/rag_system.py. -/
def ragSystemModule (legacy : Option (PyArgs → PyOutcome Unit)) :
    PyOutcome (PyArgs → PyOutcome Unit) :=
  coreModule legacy "RAGSystem is unavailable. Import of V4.RagSys failed."

/-- src/viincci_rag/core/api_monitor.py. -/
def apiMonitorModule (legacy : Option (PyArgs → PyOutcome Unit)) :
    PyOutcome (PyArgs → PyOutcome Unit) :=
  coreModule legacy
    "SerpAPIMonitor is unavailable. Import of V4.ApiMonitor failed."

/-- src/viincci_rag/core/spider.py. -/
def spiderModule (legacy : Option (PyArgs → PyOutcome Unit)) :
    PyOutcome (PyArgs → PyOutcome Unit) :=
  coreModule legacy
    "UniversalResearchSpider is unavailable. Import of V4.Spider failed."

/-- src/viincci_rag/core/config.py. -/
def configModule (legacy : Option (PyArgs → PyOutcome Unit)) :
    PyOutcome (PyArgs → PyOutcome Unit) :=
  coreModule legacy
    "ConfigManager is unavailable. Import of V4.ConfigManager failed."

/-! ## Theorems -/

/-- C1: when `can_start` denies the budget, `research` with
`estimate_first = true` issues no external provider search call and returns
the empty record sequence — a total function, so no error is raised for a
budget denial. -/
theorem research_denied_is_empty (resp : Option Nat) (expected_calls : Nat)
    (domain query : String) (rawBatches : List (List RawResult))
    (h : can_start resp expected_calls = false) :
    research resp expected_calls true domain query rawBatches = ([], 0) := by
  simp [research, h]

/-- Witness for C1: with remaining = 5 credits and expected_calls = 10,
`can_start` is false and `research` returns the empty sequence with zero
external calls recorded. -/
theorem research_denied_is_empty_witness :
    can_start (some 5) 10 = false ∧
      research (some 5) 10 true "botany" "Rosa rubiginosa"
        [[{ title := "t", snippet := "s", link := "u" }]] = ([], 0) :=
  ⟨by decide,
   research_denied_is_empty (some 5) 10 "botany" "Rosa rubiginosa"
     [[{ title := "t", snippet := "s", link := "u" }]] (by decide)⟩

/-- C2: for positive `expected_calls`, `can_start` returns true exactly when
the checked remaining credits cover `expected_calls` and the threshold state
is not `EXHAUSTED`; hence it is false whenever remaining < expected_calls or
the state is `EXHAUSTED`. -/
theorem can_start_iff (resp : Option Nat) (expected_calls : Nat)
    (hpos : 0 < expected_calls) :
    can_start resp expected_calls = true ↔
      expected_calls ≤ (check_credits resp).remaining ∧
        (check_credits resp).threshold_state ≠ .EXHAUSTED := by
  simp [can_start, estimate, Bool.and_eq_true, decide_eq_true_iff]

/-- Witness for C2 at expected_calls = 3 against a reply of 50 credits. -/
theorem can_start_iff_witness :
    (0 : Nat) < 3 ∧
      (can_start (some 50) 3 = true ↔
        3 ≤ (check_credits (some 50)).remaining ∧
          (check_credits (some 50)).threshold_state ≠ .EXHAUSTED) :=
  ⟨by decide, can_start_iff (some 50) 3 (by decide)⟩

/-- C3: classification is a pure function of `remaining` against the fixed
thresholds warning = 100 and critical = 20: at least 100 remaining yields
`OK`; under 20 remaining yields `CRITICAL` or `EXHAUSTED` and
`can_proceed = false`; zero remaining yields `EXHAUSTED`. -/
theorem check_credits_classification (r : Nat) :
    (warning_threshold ≤ r →
      (check_credits (some r)).threshold_state = .OK) ∧
    (r < critical_threshold →
      ((check_credits (some r)).threshold_state = .CRITICAL ∨
        (check_credits (some r)).threshold_state = .EXHAUSTED) ∧
      (check_credits (some r)).can_proceed = false) ∧
    (r = 0 → (check_credits (some r)).threshold_state = .EXHAUSTED) := by
  have hw : warning_threshold = 100 := rfl
  have hc : critical_threshold = 20 := rfl
  rw [hw, hc]
  refine ⟨fun h => ?_, fun h => ⟨?_, ?_⟩, fun h => ?_⟩ <;>
    simp only [check_credits, queryAccountStatus, classify,
      warning_threshold, critical_threshold] <;>
    split_ifs <;>
    first
      | rfl
      | (exfalso; omega)
      | (exact Or.inl rfl)
      | (exact Or.inr rfl)

/-- Witness for C3: the three branches applied at remaining = 150, 5
and 0. -/
theorem check_credits_classification_witness :
    (check_credits (some 150)).threshold_state = .OK ∧
      ((check_credits (some 5)).threshold_state = .CRITICAL ∨
        (check_credits (some 5)).threshold_state = .EXHAUSTED) ∧
      (check_credits (some 5)).can_proceed = false ∧
      (check_credits (some 0)).threshold_state = .EXHAUSTED :=
  ⟨(check_credits_classification 150).1 (by decide),
   ((check_credits_classification 5).2.1 (by decide)).1,
   ((check_credits_classification 5).2.1 (by decide)).2,
   (check_credits_classification 0).2.2 rfl⟩

/-- C4: a failed account-status query fails with `ProviderUnavailable`, and
`check_credits` fails closed: the resulting status has `can_proceed = false`
and `threshold_state = EXHAUSTED`, so a failed budget check is never
permission to proceed. -/
theorem check_credits_fail_closed :
    queryAccountStatus none = .error .ProviderUnavailable ∧
      (check_credits none).can_proceed = false ∧
      (check_credits none).threshold_state = .EXHAUSTED := by
  refine ⟨rfl, rfl, rfl⟩

/-- C10: each of the four core wrapper modules imports successfully even
when the legacy V4 class is unavailable, and in that fallback case the
exported constructor raises RuntimeError for every combination of
positional and keyword arguments — failure is deferred from import time to
first instantiation and no object is produced. -/
theorem core_wrappers_defer_failure (args : PyArgs) :
    (ragSystemModule none =
      .ok (fallbackCtor "RAGSystem is unavailable. Import of V4.RagSys failed.") ∧
      ∀ ctor, ragSystemModule none = .ok ctor →
        ctor args = .raises "RAGSystem is unavailable. Import of V4.RagSys failed.") ∧
    (apiMonitorModule none =
      .ok (fallbackCtor "SerpAPIMonitor is unavailable. Import of V4.ApiMonitor failed.") ∧
      ∀ ctor, apiMonitorModule none = .ok ctor →
        ctor args = .raises "SerpAPIMonitor is unavailable. Import of V4.ApiMonitor failed.") ∧
    (spiderModule none =
      .ok (fallbackCtor "UniversalResearchSpider is unavailable. Import of V4.Spider failed.") ∧
      ∀ ctor, spiderModule none = .ok ctor →
        ctor args = .raises "UniversalResearchSpider is unavailable. Import of V4.Spider failed.") ∧
    (configModule none =
      .ok (fallbackCtor "ConfigManager is unavailable. Import of V4.ConfigManager failed.") ∧
      ∀ ctor, configModule none = .ok ctor →
        ctor args = .raises "ConfigManager is unavailable. Import of V4.ConfigManager failed.") := by
  refine ⟨⟨rfl, ?_⟩, ⟨rfl, ?_⟩, ⟨rfl, ?_⟩, ⟨rfl, ?_⟩⟩ <;>
    · intro ctor h
      cases h
      rfl

/-- Witness for C10 at a concrete argument combination (two positional
arguments and one keyword argument). -/
theorem core_wrappers_defer_failure_witness :
    fallbackCtor "ConfigManager is unavailable. Import of V4.ConfigManager failed."
        { positional := ["a", "b"], keyword := [("verbose", "True")] } =
      .raises "ConfigManager is unavailable. Import of V4.ConfigManager failed." :=
  (core_wrappers_defer_failure
      { positional := ["a", "b"], keyword := [("verbose", "True")] }).2.2.2.2
    (fallbackCtor "ConfigManager is unavailable. Import of V4.ConfigManager failed.")
    rfl

/-- Every record emitted by the deduplication pass comes from the input and
carries a URL not in the seen accumulator. -/
theorem mem_of_mem_dedupAux :
    ∀ {l : List SearchRecord} {seen : List String} {r : SearchRecord},
      r ∈ dedupAux l seen → r ∈ l ∧ r.url ∉ seen := by
  intro l
  induction l with
  | nil => intro seen r h; simp [dedupAux] at h
  | cons x rest ih =>
    intro seen r h
    by_cases hx : x.url ∈ seen
    · rw [dedupAux, if_pos hx] at h
      rcases ih h with ⟨hm, hs⟩
      exact ⟨List.mem_cons_of_mem _ hm, hs⟩
    · rw [dedupAux, if_neg hx] at h
      rcases List.mem_cons.mp h with rfl | hm
      · exact ⟨List.mem_cons_self _ _, hx⟩
      · rcases ih hm with ⟨hm2, hs⟩
        exact ⟨List.mem_cons_of_mem _ hm2,
          fun hc => hs (List.mem_cons_of_mem _ hc)⟩

/-- The deduplication pass emits pairwise distinct URLs. -/
theorem dedupAux_pairwise :
    ∀ (l : List SearchRecord) (seen : List String),
      List.Pairwise (fun a b => a.url ≠ b.url) (dedupAux l seen) := by
  intro l
  induction l with
  | nil => intro seen; simp [dedupAux]
  | cons x rest ih =>
    intro seen
    by_cases hx : x.url ∈ seen
    · rw [dedupAux, if_pos hx]; exact ih seen
    · rw [dedupAux, if_neg hx]
      refine List.Pairwise.cons ?_ (ih _)
      intro b hb hurl
      refine (mem_of_mem_dedupAux hb).2 ?_
      rw [← hurl]
      exact List.mem_cons_self _ _

/-- A URL already in the seen accumulator is never emitted again. -/
theorem dedupAux_countP_zero :
    ∀ (l : List SearchRecord) (seen : List String) (u : String), u ∈ seen →
      (dedupAux l seen).countP (fun r => r.url == u) = 0 := by
  intro l
  induction l with
  | nil => intro seen u _; rfl
  | cons x rest ih =>
    intro seen u hu
    by_cases hx : x.url ∈ seen
    · rw [dedupAux, if_pos hx]; exact ih seen u hu
    · rw [dedupAux, if_neg hx, List.countP_cons]
      have hne : (x.url == u) = false :=
        beq_eq_false_iff_ne.mpr (fun he => hx (he ▸ hu))
      rw [ih (x.url :: seen) u (List.mem_cons_of_mem _ hu), hne]
      rfl

/-- A URL occurring in the input and not yet seen is emitted exactly
once. -/
theorem dedupAux_countP_one :
    ∀ (l : List SearchRecord) (seen : List String) (u : String), u ∉ seen →
      u ∈ l.map SearchRecord.url →
      (dedupAux l seen).countP (fun r => r.url == u) = 1 := by
  intro l
  induction l with
  | nil => intro seen u _ hu; simp at hu
  | cons x rest ih =>
    intro seen u hseen hu
    by_cases hx : x.url ∈ seen
    · rw [dedupAux, if_pos hx]
      have hne : u ≠ x.url := fun he => hseen (he ▸ hx)
      have hrest : u ∈ rest.map SearchRecord.url := by
        rcases List.mem_map.mp hu with ⟨s, hs, hsu⟩
        rcases List.mem_cons.mp hs with rfl | hs2
        · exact absurd hsu (fun he => hne he.symm)
        · exact List.mem_map.mpr ⟨s, hs2, hsu⟩
      exact ih seen u hseen hrest
    · rw [dedupAux, if_neg hx, List.countP_cons]
      by_cases hux : u = x.url
      · have h1 : (x.url == u) = true := beq_iff_eq.mpr hux.symm
        have hmem : u ∈ x.url :: seen := by
          rw [hux]; exact List.mem_cons_self _ _
        rw [dedupAux_countP_zero rest (x.url :: seen) u hmem, h1]
        rfl
      · have h0 : (x.url == u) = false :=
          beq_eq_false_iff_ne.mpr (fun he => hux he.symm)
        have hrest : u ∈ rest.map SearchRecord.url := by
          rcases List.mem_map.mp hu with ⟨s, hs, hsu⟩
          rcases List.mem_cons.mp hs with rfl | hs2
          · exact absurd hsu (fun he => hux he.symm)
          · exact List.mem_map.mpr ⟨s, hs2, hsu⟩
        have hseen2 : u ∉ x.url :: seen := by
          intro hc
          rcases List.mem_cons.mp hc with he | hc2
          · exact hux he
          · exact hseen hc2
        rw [ih (x.url :: seen) u hseen2 hrest, h0]
        rfl

/-- On a rank-sorted input, deduplication keeps, for each URL, the record
with minimal rank among all input records carrying that URL. -/
theorem dedupAux_min_rank :
    ∀ (l : List SearchRecord) (seen : List String),
      List.Pairwise (fun a b => a.rank ≤ b.rank) l →
      ∀ r ∈ dedupAux l seen, ∀ s ∈ l, s.url = r.url → r.rank ≤ s.rank := by
  intro l
  induction l with
  | nil => intro seen _ r hr; simp [dedupAux] at hr
  | cons x rest ih =>
    intro seen hp r hr s hs hurl
    rcases List.pairwise_cons.mp hp with ⟨hle, hprest⟩
    by_cases hx : x.url ∈ seen
    · rw [dedupAux, if_pos hx] at hr
      rcases List.mem_cons.mp hs with rfl | hs2
      · exfalso
        refine (mem_of_mem_dedupAux hr).2 ?_
        rw [← hurl]
        exact hx
      · exact ih seen hprest r hr s hs2 hurl
    · rw [dedupAux, if_neg hx] at hr
      rcases List.mem_cons.mp hr with rfl | hr2
      · rcases List.mem_cons.mp hs with rfl | hs2
        · exact Nat.le_refl _
        · exact hle s hs2
      · have hrnot := (mem_of_mem_dedupAux hr2).2
        rcases List.mem_cons.mp hs with rfl | hs2
        · exfalso
          refine hrnot ?_
          rw [← hurl]
          exact List.mem_cons_self _ _
        · exact ih (x.url :: seen) hprest r hr2 s hs2 hurl

/-- C5: `research` output never contains two records with the same url;
every url occurring among the normalized raw results occurs in the output
exactly once; and the kept record for a url has minimal rank among all
normalized records carrying that url (earliest/highest-ranked occurrence
wins). -/
theorem research_dedup_unique (resp : Option Nat) (expected_calls : Nat)
    (estimate_first : Bool) (domain query : String)
    (rawBatches : List (List RawResult))
    (hgo : can_start resp expected_calls = true) :
    List.Pairwise (fun a b => a.url ≠ b.url)
      (research resp expected_calls estimate_first domain query rawBatches).1 ∧
    (∀ s ∈ (rawBatches.map (normalizeBatch domain query)).flatten,
      (research resp expected_calls estimate_first domain query
          rawBatches).1.countP (fun r => r.url == s.url) = 1) ∧
    (∀ r ∈ (research resp expected_calls estimate_first domain query
        rawBatches).1,
      ∀ s ∈ (rawBatches.map (normalizeBatch domain query)).flatten,
        s.url = r.url → r.rank ≤ s.rank) := by
  have hres : (research resp expected_calls estimate_first domain query
      rawBatches).1 =
      dedupByUrl (List.insertionSort rankOrder
        ((rawBatches.map (normalizeBatch domain query)).flatten)) := by
    rw [research, hgo]
    simp
  rw [hres]
  refine ⟨dedupAux_pairwise _ _, fun s hs => ?_, fun r hr s hs hurl => ?_⟩
  · refine dedupAux_countP_one _ [] s.url (by simp) ?_
    refine List.mem_map.mpr ⟨s, ?_, rfl⟩
    exact ((List.perm_insertionSort rankOrder _).mem_iff).mpr hs
  · have hsorted : List.Pairwise (fun a b => a.rank ≤ b.rank)
        (List.insertionSort rankOrder
          ((rawBatches.map (normalizeBatch domain query)).flatten)) :=
      List.sorted_insertionSort rankOrder _
    refine dedupAux_min_rank _ [] hsorted r hr s ?_ hurl
    exact ((List.perm_insertionSort rankOrder _).mem_iff).mpr hs

/-- Witness for C5: a research invocation admitted at 50 remaining credits
whose raw batch repeats the url "u"; the output keeps exactly one record
for "u", the rank-1 occurrence. -/
theorem research_dedup_unique_witness :
    can_start (some 50) 1 = true ∧
      List.Pairwise (fun a b => a.url ≠ b.url)
        (research (some 50) 1 true "d" "q"
          [[{ title := "t1", snippet := "s1", link := "u" },
            { title := "t2", snippet := "s2", link := "u" }]]).1 :=
  ⟨by decide,
   (research_dedup_unique (some 50) 1 true "d" "q"
     [[{ title := "t1", snippet := "s1", link := "u" },
       { title := "t2", snippet := "s2", link := "u" }]] (by decide)).1⟩

/-- C6: `build_index` on inputs of mismatched lengths fails with
`DimensionMismatch` and leaves the prior orchestrator state — in particular
its entry count `ntotal` — untouched. -/
theorem build_index_mismatch (o : Orchestrator) (texts : List String)
    (metadata : List Meta) (h : texts.length ≠ metadata.length) :
    build_index o texts metadata = (some .DimensionMismatch, o) ∧
      ntotal (build_index o texts metadata).2 = ntotal o := by
  rw [build_index, if_neg h]
  exact ⟨rfl, rfl⟩

/-- Witness for C6: one text against zero metadata entries, starting from an
index already holding one entry, which stays at `ntotal = 1`. -/
theorem build_index_mismatch_witness :
    build_index { index := [("old", [])] } ["a"] [] =
        (some .DimensionMismatch, { index := [("old", [])] }) ∧
      ntotal (build_index { index := [("old", [])] } ["a"] []).2 = 1 :=
  build_index_mismatch { index := [("old", [])] } ["a"] [] (by decide)

/-- The retrieved list has exactly `min k ntotal` entries. -/
theorem retrieve_length (sim : String → String → Int) (o : Orchestrator)
    (question : String) (k : Nat) :
    (retrieve sim o question k).length = min k (ntotal o) := by
  rw [retrieve, List.length_take, List.length_insertionSort, List.enum_length]
  rfl

/-- Every retrieved entry is an entry of the index. -/
theorem retrieve_subset (sim : String → String → Int) (o : Orchestrator)
    (question : String) (k : Nat) :
    ∀ p ∈ retrieve sim o question k, p.2 ∈ o.index := by
  intro p hp
  have h1 : p ∈ List.insertionSort (retrievalOrder (sim question))
      o.index.enum := List.mem_of_mem_take hp
  have h2 : p ∈ o.index.enum :=
    ((List.perm_insertionSort _ _).mem_iff).mp h1
  exact List.snd_mem_of_mem_enum h2

/-- The shape of a successful `queryE` call: a non-empty index and a
successful generation yield the retrieved entries and their scores. -/
theorem queryE_gen_ok (sim : String → String → Int)
    (gen : String → Nat → Except String String) (o : Orchestrator)
    (question : String) (k m : Nat) (hne : ntotal o ≠ 0) (ans : String)
    (hgen : gen (promptOf sim o question k) m = .ok ans) :
    queryE sim gen o question k m =
      .ok { answer := ans
            retrieved := (retrieve sim o question k).map (fun p => p.2)
            scores := (retrieve sim o question k).map
              (fun p => sim question p.2.1) } := by
  rw [queryE, if_neg hne, hgen]

/-- C7: a successful `build_index` with equal-length inputs reports no error
and sets the entry count `ntotal` to `len(texts)`; in particular, after
building from the two test documents the entry count is 2 and a subsequent
`query` with k = 1 (and max_new_tokens = 50) returns exactly one retrieved
record, drawn from those two entries, whatever similarity the embedding
backend assigns. -/
theorem build_index_roundtrip (o : Orchestrator) (texts : List String)
    (metadata : List Meta) (h : texts.length = metadata.length) :
    ((build_index o texts metadata).1 = none ∧
      ntotal (build_index o texts metadata).2 = texts.length) ∧
    (∀ (sim : String → String → Int)
        (gen : String → Nat → Except String String) (o0 : Orchestrator),
      ntotal (build_index o0 ["Test document 1", "Test document 2"]
        [[("source", "test1")], [("source", "test2")]]).2 = 2 ∧
      ∀ ans,
        gen (promptOf sim
          (build_index o0 ["Test document 1", "Test document 2"]
            [[("source", "test1")], [("source", "test2")]]).2 "test" 1) 50 =
          .ok ans →
        ∃ res,
          queryE sim gen
              (build_index o0 ["Test document 1", "Test document 2"]
                [[("source", "test1")], [("source", "test2")]]).2
              "test" 1 50 = .ok res ∧
            res.retrieved.length = 1 ∧
            ∀ e ∈ res.retrieved,
              e ∈ (build_index o0 ["Test document 1", "Test document 2"]
                [[("source", "test1")], [("source", "test2")]]).2.index) := by
  constructor
  · rw [build_index, if_pos h]
    refine ⟨rfl, ?_⟩
    rw [ntotal]
    simp only [List.length_zip, h, Nat.min_self]
  · intro sim gen o0
    constructor
    · rfl
    · intro ans hgen
      refine ⟨_, queryE_gen_ok sim gen _ "test" 1 50
        (by simp [build_index, ntotal]) ans hgen, ?_, ?_⟩
      · rw [List.length_map, retrieve_length]
        rfl
      · intro e he
        rcases List.mem_map.mp he with ⟨p, hp, rfl⟩
        exact retrieve_subset sim _ "test" 1 p hp

/-- Witness for C7: building two entries on top of an empty orchestrator
succeeds with entry count 2. -/
theorem build_index_roundtrip_witness :
    (build_index { index := [] } ["Test document 1", "Test document 2"]
        [[("source", "test1")], [("source", "test2")]]).1 = none ∧
      ntotal (build_index { index := [] }
        ["Test document 1", "Test document 2"]
        [[("source", "test1")], [("source", "test2")]]).2 = 2 :=
  (build_index_roundtrip { index := [] }
    ["Test document 1", "Test document 2"]
    [[("source", "test1")], [("source", "test2")]] (by decide)).1

/-- C8: for positive k, `query` against an empty index fails with
`EmptyIndex` rather than generating an unconditioned answer; against a
non-empty index the retrieval yields exactly `min k ntotal` records — a k
larger than `ntotal` clamps to `ntotal` and never raises out-of-range — and
a successful generation returns exactly those records. -/
theorem query_clamps (sim : String → String → Int)
    (gen : String → Nat → Except String String) (o : Orchestrator)
    (question : String) (k m : Nat) (hk : 0 < k) :
    (ntotal o = 0 → queryE sim gen o question k m = .error .EmptyIndex) ∧
    (ntotal o ≠ 0 →
      (retrieve sim o question k).length = min k (ntotal o) ∧
      ∀ ans, gen (promptOf sim o question k) m = .ok ans →
        ∃ res, queryE sim gen o question k m = .ok res ∧
          res.retrieved.length = min k (ntotal o)) := by
  constructor
  · intro h0
    rw [queryE, if_pos h0]
  · intro hne
    refine ⟨retrieve_length sim o question k, fun ans hgen => ?_⟩
    refine ⟨_, queryE_gen_ok sim gen o question k m hne ans hgen, ?_⟩
    rw [List.length_map, retrieve_length]

/-- Witness for C8 at k = 5 against an index of 2 entries (clamped to 2)
and against the empty index (EmptyIndex). -/
theorem query_clamps_witness :
    (0 : Nat) < 5 ∧
      queryE (fun _ _ => 0) (fun _ _ => .ok "a") { index := [] } "q" 5 10 =
        .error .EmptyIndex ∧
      (retrieve (fun _ _ => 0) { index := [("d1", []), ("d2", [])] } "q"
        5).length = min 5 (ntotal { index := [("d1", []), ("d2", [])] }) :=
  ⟨by decide,
   (query_clamps (fun _ _ => 0) (fun _ _ => .ok "a") { index := [] } "q" 5 10
     (by decide)).1 rfl,
   ((query_clamps (fun _ _ => 0) (fun _ _ => .ok "a")
     { index := [("d1", []), ("d2", [])] } "q" 5 10 (by decide)).2
     (by decide)).1⟩

/-- C9: a generation runtime error is caught inside `query` and returned as
a `QueryResult` whose answer is the explicit error marker and whose
retrieved list is empty; and a batch of questions is processed question by
question, each result depending only on its own question, so one failed
question never aborts the remaining ones. -/
theorem query_isolates_failures (sim : String → String → Int)
    (gen : String → Nat → Except String String) (o : Orchestrator)
    (q : String) (k m : Nat) (e : String) (hne : ntotal o ≠ 0)
    (hfail : gen (promptOf sim o q k) m = .error e) :
    queryE sim gen o q k m =
      .ok { answer := errorMarker e, retrieved := [], scores := [] } ∧
    ∀ (questions : List String),
      (runQuestions sim gen o k m questions).length = questions.length ∧
      ∀ (i : Nat),
        (runQuestions sim gen o k m questions)[i]? =
          (questions[i]?).map (fun q2 => queryE sim gen o q2 k m) := by
  constructor
  · rw [queryE, if_neg hne, hfail]
  · intro questions
    constructor
    · rw [runQuestions, List.length_map]
    · intro i
      rw [runQuestions, List.getElem?_map]

/-- Witness for C9: a one-entry index with a generation backend that always
fails with "boom"; the query returns the marker answer with no retrieved
records instead of propagating the failure. -/
theorem query_isolates_failures_witness :
    queryE (fun _ _ => 0) (fun _ _ => .error "boom") { index := [("t", [])] }
        "q" 5 10 =
      .ok { answer := errorMarker "boom", retrieved := [], scores := [] } :=
  (query_isolates_failures (fun _ _ => 0) (fun _ _ => .error "boom")
    { index := [("t", [])] } "q" 5 10 "boom" (by decide) rfl).1

end ViincciRAG

